import Mathlib

/-!
Verification of the llll hub-control library (src/llll).

Shallow embedding of the Python sources into Lean:
  * firmware.py  — `parse_version`, `compare_versions` (pure string functions);
  * discover.py  — `DEVICE_MAP`, `parse_discovery_output`, `run_discovery`;
  * runner.py    — `run_program`.

Python strings are modelled as `List Char`; `json.loads` is modelled by an
executable JSON parser (`jsonLoads`).  Python exceptions are modelled with
`Except PyErr`.  JSON numbers are modelled as integers: payloads containing
fractional or exponent number literals are outside the model (the discovery
protocol only ever carries integers, strings, null and nesting thereof).
Filesystem state is modelled explicitly as lists of file names; wall-clock
quantities (timestamps, durations) are oracle inputs or omitted.
-/

namespace Llll

/-- Python exception kinds that the modelled code can raise. -/
inductive PyErr where
  | jsonDecode
  | typeError
  | attributeError
  | osError
deriving DecidableEq

/-! ## Python string primitives (on `List Char`) -/

/-- Model of `str.startswith(prefix)`. -/
def charsStartsWith : List Char → List Char → Bool
  | [], _ => true
  | _ :: _, [] => false
  | p :: ps, c :: cs => p = c && charsStartsWith ps cs

/-- Fuel-driven worker for `pySplit`; fuel `≥` the length of the input is
always enough since every recursive call consumes at least one character. -/
def pySplitFuel (sep : List Char) : Nat → List Char → List (List Char)
  | _, [] => [[]]
  | 0, s => [s]
  | fuel + 1, c :: cs =>
    if charsStartsWith sep (c :: cs) then
      [] :: pySplitFuel sep fuel (List.drop (sep.length - 1) cs)
    else
      match pySplitFuel sep fuel cs with
      | [] => [[c]]
      | h :: t => (c :: h) :: t

/-- Model of Python `str.split(sep)` for a non-empty separator. -/
def pySplit (sep s : List Char) : List (List Char) :=
  pySplitFuel sep s.length s

/-- Model of Python `str.splitlines()`.  Line boundaries `\n`, `\r\n`
and `\r` are modelled; the exotic Unicode boundaries Python also accepts
do not occur in this protocol and are not modelled. -/
def pySplitlines : List Char → List (List Char)
  | [] => []
  | '\r' :: '\n' :: rest =>
    match pySplitlines rest with
    | [] => [[]]
    | ls => [] :: ls
  | c :: rest =>
    if c = '\n' ∨ c = '\r' then
      match pySplitlines rest with
      | [] => [[]]
      | ls => [] :: ls
    else
      match pySplitlines rest with
      | [] => [[c]]
      | l :: ls => (c :: l) :: ls

/-- Whitespace stripped by Python `int(...)` around its argument. -/
def isPySpace (c : Char) : Bool :=
  c = ' ' ∨ c = '\t' ∨ c = '\n' ∨ c = '\r' ∨ c = Char.ofNat 11 ∨ c = Char.ofNat 12

def isDigit (c : Char) : Bool := '0' ≤ c ∧ c ≤ '9'

/-- Value of a pure digit run (`none` if a non-digit occurs). -/
def digitsVal (acc : Nat) : List Char → Option Nat
  | [] => some acc
  | c :: r => if isDigit c then digitsVal (acc * 10 + (c.toNat - '0'.toNat)) r else none

def pyStrip (s : List Char) : List Char :=
  ((s.dropWhile isPySpace).reverse.dropWhile isPySpace).reverse

/-- Model of Python `int(s)` (base 10): optional surrounding whitespace,
optional sign, then a non-empty digit run; anything else raises
`ValueError`, modelled as `none`.  Digit-group underscores are not
modelled (they never occur in version strings). -/
def pyInt (s : List Char) : Option Int :=
  match pyStrip s with
  | '+' :: r => if r = [] then none else (digitsVal 0 r).map (fun n => (n : Int))
  | '-' :: r => if r = [] then none else (digitsVal 0 r).map (fun n => -(n : Int))
  | t => if t = [] then none else (digitsVal 0 t).map (fun n => (n : Int))

/-- Maps `pyInt` across the components; `none` as soon as one fails,
mirroring the `try`-wrapped generator `tuple(int(p) for p in parts)`. -/
def pyIntList : List (List Char) → Option (List Int)
  | [] => some []
  | p :: ps =>
    match pyInt p, pyIntList ps with
    | some n, some ns => some (n :: ns)
    | _, _ => none

/-! ## firmware.py -/

/-- Suffix stripping from `parse_version`
(`version_str.split("a")[0].split("b")[0].split("rc")[0]`). -/
def stripPreRelease (s : List Char) : List Char :=
  (pySplit ['r', 'c'] ((pySplit ['b'] ((pySplit ['a'] s).headD [])).headD [])).headD []

/-- Model of `firmware.parse_version`: empty or "unknown" input gives
`[0, 0, 0]`; otherwise the suffix-stripped string is split on dots and
each component passed to `int`, a `ValueError` giving `[0, 0, 0]`. -/
def parse_version (version_str : String) : List Int :=
  let s := version_str.data
  if s = [] ∨ s = "unknown".data then [0, 0, 0]
  else
    match pyIntList (pySplit ['.'] (stripPreRelease s)) with
    | some ns => ns
    | none => [0, 0, 0]

/-- Python `<` on integer tuples: lexicographic, a strict prefix being
smaller. -/
def tupleLt : List Int → List Int → Bool
  | [], [] => false
  | [], _ :: _ => true
  | _ :: _, [] => false
  | x :: xs, y :: ys => if x < y then true else if y < x then false else tupleLt xs ys

/-- Model of `firmware.compare_versions`. -/
def compare_versions (current latest : String) : Int :=
  let current_tuple := parse_version current
  let latest_tuple := parse_version latest
  if tupleLt current_tuple latest_tuple then -1
  else if tupleLt latest_tuple current_tuple then 1
  else 0

/-! ## JSON values and a model of `json.loads` -/

/-- JSON values as decoded by `json.loads`: objects become insertion-ordered
key/value lists (Python dicts), numbers are integers (see the file header). -/
inductive Json where
  | null
  | bool (b : Bool)
  | num (n : Int)
  | str (s : List Char)
  | arr (xs : List Json)
  | obj (kvs : List (List Char × Json))

/-- Opening brace character. -/
def lbrace : Char := Char.ofNat 123

/-- Closing brace character. -/
def rbrace : Char := Char.ofNat 125

/-- JSON inter-token whitespace (exactly the characters `json.loads` skips). -/
def jsonWs (s : List Char) : List Char :=
  s.dropWhile (fun c => c = ' ' ∨ c = '\t' ∨ c = '\n' ∨ c = '\r')

def hexVal (c : Char) : Option Nat :=
  if '0' ≤ c ∧ c ≤ '9' then some (c.toNat - '0'.toNat)
  else if 'a' ≤ c ∧ c ≤ 'f' then some (c.toNat - 'a'.toNat + 10)
  else if 'A' ≤ c ∧ c ≤ 'F' then some (c.toNat - 'A'.toNat + 10)
  else none

/-- Body of a JSON string literal after the opening quote, returning the
decoded characters and the input after the closing quote.  Escapes and the
strict-mode ban on raw control characters are modelled; surrogate-pair
recombination of `\uXXXX` escapes is not (no claim involves it). -/
def parseStringBody : List Char → Option (List Char × List Char)
  | [] => none
  | '"' :: r => some ([], r)
  | '\\' :: r =>
    match r with
    | 'u' :: a :: b :: c :: d :: r2 =>
      match hexVal a, hexVal b, hexVal c, hexVal d with
      | some x1, some x2, some x3, some x4 =>
        (parseStringBody r2).map (fun p =>
          (Char.ofNat (((x1 * 16 + x2) * 16 + x3) * 16 + x4) :: p.1, p.2))
      | _, _, _, _ => none
    | e :: r2 =>
      let esc : Option Char :=
        if e = '"' then some '"'
        else if e = '\\' then some '\\'
        else if e = '/' then some '/'
        else if e = 'b' then some (Char.ofNat 8)
        else if e = 'f' then some (Char.ofNat 12)
        else if e = 'n' then some '\n'
        else if e = 'r' then some '\r'
        else if e = 't' then some '\t'
        else none
      match esc with
      | some ch => (parseStringBody r2).map (fun p => (ch :: p.1, p.2))
      | none => none
    | [] => none
  | c :: r =>
    if c.toNat < 32 then none
    else (parseStringBody r).map (fun p => (c :: p.1, p.2))

def digitsToNat (acc : Nat) : List Char → Nat × List Char
  | [] => (acc, [])
  | c :: r =>
    if isDigit c then digitsToNat (acc * 10 + (c.toNat - '0'.toNat)) r else (acc, c :: r)

/-- Integer part of a JSON number literal (leading-zero rule included).
Fractional and exponent forms denote floats and are outside the model. -/
def parseNumCore : List Char → Option (Nat × List Char)
  | [] => none
  | c :: r =>
    if c = '0' then
      match r with
      | c2 :: _ => if isDigit c2 ∨ c2 = '.' ∨ c2 = 'e' ∨ c2 = 'E' then none else some (0, r)
      | [] => some (0, [])
    else if isDigit c then
      let p := digitsToNat (c.toNat - '0'.toNat) r
      match p.2 with
      | c2 :: _ => if c2 = '.' ∨ c2 = 'e' ∨ c2 = 'E' then none else some (p.1, p.2)
      | [] => some (p.1, [])
    else none

def parseNumber : List Char → Option (Json × List Char)
  | '-' :: r => (parseNumCore r).map (fun p => (Json.num (-(p.1 : Int)), p.2))
  | s => (parseNumCore s).map (fun p => (Json.num (p.1 : Int), p.2))

/-- Python dict assignment `d[k] = v`: the first occurrence of the key is
replaced in place, a fresh key is appended at the end (insertion order). -/
def objSet : List (List Char × Json) → List Char → Json → List (List Char × Json)
  | [], k, v => [(k, v)]
  | (k', v') :: rest, k, v =>
    if k' = k then (k, v) :: rest else (k', v') :: objSet rest k v

/-- Partial containers of the JSON parser's explicit stack. -/
inductive JFrame where
  | arrF (acc : List Json)
  | objF (acc : List (List Char × Json)) (key : List Char)

/-- Parser state: about to read a value, or just finished one. -/
inductive JState where
  | expectValue
  | haveValue (v : Json)

/-- Shift-reduce loop of the JSON parser.  Every recursive call consumes at
least one input character, so fuel `length + 1` always suffices. -/
def jsonLoop : Nat → List JFrame → JState → List Char → Except PyErr Json
  | 0, _, _, _ => .error .jsonDecode
  | fuel + 1, stack, .expectValue, s =>
    match jsonWs s with
    | 'n' :: 'u' :: 'l' :: 'l' :: r => jsonLoop fuel stack (.haveValue .null) r
    | 't' :: 'r' :: 'u' :: 'e' :: r => jsonLoop fuel stack (.haveValue (.bool true)) r
    | 'f' :: 'a' :: 'l' :: 's' :: 'e' :: r => jsonLoop fuel stack (.haveValue (.bool false)) r
    | '"' :: r =>
      match parseStringBody r with
      | some p => jsonLoop fuel stack (.haveValue (.str p.1)) p.2
      | none => .error .jsonDecode
    | '[' :: r =>
      match jsonWs r with
      | ']' :: r2 => jsonLoop fuel stack (.haveValue (.arr [])) r2
      | _ => jsonLoop fuel (.arrF [] :: stack) .expectValue r
    | c :: r =>
      if c = lbrace then
        match jsonWs r with
        | '"' :: r2 =>
          match parseStringBody r2 with
          | some p =>
            match jsonWs p.2 with
            | ':' :: r4 => jsonLoop fuel (.objF [] p.1 :: stack) .expectValue r4
            | _ => .error .jsonDecode
          | none => .error .jsonDecode
        | c2 :: r2 =>
          if c2 = rbrace then jsonLoop fuel stack (.haveValue (.obj [])) r2
          else .error .jsonDecode
        | [] => .error .jsonDecode
      else
        match parseNumber (c :: r) with
        | some p => jsonLoop fuel stack (.haveValue p.1) p.2
        | none => .error .jsonDecode
    | [] => .error .jsonDecode
  | fuel + 1, stack, .haveValue v, s =>
    match stack with
    | [] => if jsonWs s = [] then .ok v else .error .jsonDecode
    | .arrF acc :: rest =>
      match jsonWs s with
      | ',' :: r => jsonLoop fuel (.arrF (acc ++ [v]) :: rest) .expectValue r
      | ']' :: r => jsonLoop fuel rest (.haveValue (.arr (acc ++ [v]))) r
      | _ => .error .jsonDecode
    | .objF acc k :: rest =>
      match jsonWs s with
      | ',' :: r =>
        match jsonWs r with
        | '"' :: r2 =>
          match parseStringBody r2 with
          | some p =>
            match jsonWs p.2 with
            | ':' :: r4 => jsonLoop fuel (.objF (objSet acc k v) p.1 :: rest) .expectValue r4
            | _ => .error .jsonDecode
          | none => .error .jsonDecode
        | _ => .error .jsonDecode
      | c :: r =>
        if c = rbrace then jsonLoop fuel rest (.haveValue (.obj (objSet acc k v))) r
        else .error .jsonDecode
      | [] => .error .jsonDecode

/-- Model of `json.loads` on the decoded text, raising
`json.JSONDecodeError` (`PyErr.jsonDecode`) on malformed input. -/
def jsonLoads (s : List Char) : Except PyErr Json :=
  jsonLoop (s.length + 1) [] .expectValue s

/-! ## discover.py — device catalog and output decoder -/

/-- Device ID → (human name, pybricks class, module); verbatim from
`discover.DEVICE_MAP`. -/
def DEVICE_MAP : List (Int × String × String × String) :=
  [ (1, ("Powered Up Medium Motor", "DCMotor", "pybricks.pupdevices")),
    (2, ("Powered Up Train Motor", "DCMotor", "pybricks.pupdevices")),
    (8, ("Powered Up Light", "Light", "pybricks.pupdevices")),
    (34, ("WeDo 2.0 Tilt Sensor", "TiltSensor", "pybricks.pupdevices")),
    (35, ("WeDo 2.0 Motion Sensor", "InfraredSensor", "pybricks.pupdevices")),
    (37, ("BOOST Color Distance Sensor", "ColorDistanceSensor", "pybricks.pupdevices")),
    (38, ("BOOST Interactive Motor", "Motor", "pybricks.pupdevices")),
    (46, ("Technic Large Motor", "Motor", "pybricks.pupdevices")),
    (47, ("Technic XL Motor", "Motor", "pybricks.pupdevices")),
    (48, ("SPIKE Medium Angular Motor", "Motor", "pybricks.pupdevices")),
    (49, ("SPIKE Large Angular Motor", "Motor", "pybricks.pupdevices")),
    (61, ("Color Sensor", "ColorSensor", "pybricks.pupdevices")),
    (62, ("Ultrasonic Sensor", "UltrasonicSensor", "pybricks.pupdevices")),
    (63, ("Force Sensor", "ForceSensor", "pybricks.pupdevices")),
    (64, ("3x3 Color Light Matrix", "ColorLightMatrix", "pybricks.pupdevices")),
    (65, ("Technic Small Angular Motor", "Motor", "pybricks.pupdevices")),
    (75, ("Technic Medium Angular Motor", "Motor", "pybricks.pupdevices")),
    (76, ("Technic Large Angular Motor", "Motor", "pybricks.pupdevices")) ]

/-- Lookup `DEVICE_MAP[n]`. -/
def deviceMapLookup (n : Int) : Option (String × String × String) :=
  (DEVICE_MAP.find? (fun e => e.1 == n)).map (fun e => e.2)

/-- First value stored under a key, modelling `dict.get(k)` (decoded
objects have unique keys). -/
def objGet (kvs : List (List Char × Json)) (k : List Char) : Option Json :=
  (kvs.find? (fun p => p.1 == k)).map (fun p => p.2)

def jsonHasKey (k : List Char) (kvs : List (List Char × Json)) : Bool :=
  kvs.any (fun p => p.1 == k)

/-- Substring test, for Python `needle in s` on strings. -/
def containsSub (needle : List Char) : List Char → Bool
  | [] => needle = []
  | c :: r => charsStartsWith needle (c :: r) || containsSub needle r

/-- Python `==` between a string and a decoded JSON value (only equal
strings compare equal; cross-type comparison is `False`). -/
def jsonIsStrEq (needle : List Char) : Json → Bool
  | .str s => s = needle
  | _ => false

/-- Python membership `needle in data` for a string needle: key test on a
dict, element test on a list, substring test on a string, `TypeError` on
the remaining (non-container) values. -/
def pyInOp (needle : List Char) : Json → Except PyErr Bool
  | .obj kvs => .ok (jsonHasKey needle kvs)
  | .arr xs => .ok (xs.any (jsonIsStrEq needle))
  | .str s => .ok (containsSub needle s)
  | _ => .error .typeError

/-- Integer hash key a decoded `device_id` presents to the int-keyed
`DEVICE_MAP` (`True`/`False` hash like `1`/`0`; strings never collide with
int keys). -/
def devHashKey : Json → Option Int
  | .num n => some n
  | .bool b => some (if b then 1 else 0)
  | _ => none

/-- Text interpolated by the f-string `f"Unknown (ID {dev_id})"` for the
values that can reach it. -/
def pyFormatVal : Json → List Char
  | .num n => (toString n).data
  | .bool true => "True".data
  | .bool false => "False".data
  | .str s => s
  | .null => "None".data
  | .arr _ => []
  | .obj _ => []

/-- Enrichment of one port entry, modelling the loop body of
`parse_discovery_output` lines 126-134: a known `device_id` gains
`device_name` / `pybricks_class` / `pybricks_module`, an unknown non-null
one gains the generic label, `null` (and a missing key) is untouched.
Non-dict entries raise `AttributeError` at `.get`; unhashable ids raise
`TypeError` inside `in DEVICE_MAP`. -/
def enrichPort : Json → Except PyErr Json
  | .obj kvs =>
    match objGet kvs "device_id".data with
    | none => .ok (.obj kvs)
    | some .null => .ok (.obj kvs)
    | some (.arr _) => .error .typeError
    | some (.obj _) => .error .typeError
    | some v =>
      match devHashKey v with
      | some n =>
        match deviceMapLookup n with
        | some d =>
          .ok (.obj (objSet (objSet (objSet kvs
            "device_name".data (.str d.1.data))
            "pybricks_class".data (.str d.2.1.data))
            "pybricks_module".data (.str d.2.2.data)))
        | none =>
          .ok (.obj (objSet kvs "device_name".data
            (.str ("Unknown (ID ".data ++ pyFormatVal v ++ ")".data))))
      | none =>
        .ok (.obj (objSet kvs "device_name".data
          (.str ("Unknown (ID ".data ++ pyFormatVal v ++ ")".data))))
  | _ => .error .attributeError

def enrichPorts : List Json → Except PyErr (List Json)
  | [] => .ok []
  | p :: ps =>
    match enrichPort p with
    | .ok p2 =>
      match enrichPorts ps with
      | .ok ps2 => .ok (p2 :: ps2)
      | .error e => .error e
    | .error e => .error e

/-- The `for port_info in data.get("ports", [])` loop over the whole
payload: the ports list is enriched in place; a missing `"ports"` key
(default `[]`), an empty string or empty dict there iterate zero times;
other non-list values raise as the corresponding Python iteration would. -/
def enrichData : Json → Except PyErr Json
  | .obj kvs =>
    match objGet kvs "ports".data with
    | some (.arr ps) =>
      match enrichPorts ps with
      | .ok ps2 => .ok (.obj (objSet kvs "ports".data (.arr ps2)))
      | .error e => .error e
    | some (.str s) => if s = [] then .ok (.obj kvs) else .error .attributeError
    | some (.obj []) => .ok (.obj kvs)
    | some (.obj (_ :: _)) => .error .attributeError
    | some _ => .error .typeError
    | none => .ok (.obj kvs)
  | _ => .error .attributeError

/-- Payload handling after `json.loads`: an `"error"` member returns the
payload unchanged, otherwise the ports are enriched
(`parse_discovery_output` lines 122-136). -/
def decodePayload (data : Json) : Except PyErr Json :=
  match pyInOp "error".data data with
  | .error e => .error e
  | .ok true => .ok data
  | .ok false => enrichData data

/-- The marker `"LLLL_DETECT:"`. -/
def MARKER : List Char := "LLLL_DETECT:".data

/-- Processing of one marker line: decode the JSON after the marker, then
handle the payload. -/
def decodeMarkerLine (line : List Char) : Except PyErr Json :=
  match jsonLoads (line.drop MARKER.length) with
  | .error e => .error e
  | .ok data => decodePayload data

/-- The line scan of `parse_discovery_output`: the first marker line is
decoded and its result returned; non-marker lines are skipped; no marker
line at all gives `None`. -/
def parseLines : List (List Char) → Except PyErr (Option Json)
  | [] => .ok none
  | line :: rest =>
    if charsStartsWith MARKER line then
      match decodeMarkerLine line with
      | .ok data => .ok (some data)
      | .error e => .error e
    else parseLines rest

/-- Model of `discover.parse_discovery_output`.  `Except.error` models an
exception escaping the Python function; `.ok none` models the `None`
return. -/
def parse_discovery_output (output : String) : Except PyErr (Option Json) :=
  parseLines (pySplitlines output.data)

/-! ## runner.py — process runner

The subprocess itself is an oracle: `ProcBehavior` says whether the spawned
process finished within the timeout (with its combined output and return
code) or was still running when the timeout elapsed (with the output
drained after the kill).  The log directory is explicit state; the log
file name (program stem + UTC timestamp) is an oracle input since wall
clocks are not modelled, and the log file's text content is not tracked.
`duration` (a wall-clock float) is likewise not modelled. -/

/-- Outcome of racing `proc.communicate()` against the timeout. -/
inductive ProcBehavior where
  | completes (procOutput : String) (returncode : Int)
  | hangs (partialOutput : String)

/-- Observable side effects of one `run_program` call, in order. -/
inductive RunEffect where
  | mkdirLogs
  | spawned
  | killed
  | wroteLog (name : String)
  | updatedLatest (name : String)
deriving DecidableEq

/-- State of the `logs/` directory: its files and the `latest.log`
symlink target. -/
structure LogsDir where
  logFiles : List String
  latest : Option String
deriving DecidableEq

/-- The dict returned by `run_program`; `none` fields model keys absent
from the early-return dicts. -/
structure RunResult where
  success : Bool
  exit_code : Option Int
  timed_out : Option Bool
  output : String
  log_file : Option String
  error : Option String
deriving DecidableEq

/-- Model of `runner.run_program`.  `programExists` models the
`program.exists()` check; `spawn = none` models `FileNotFoundError` from
`create_subprocess_exec` (pybricksdev missing); `logName` is the
timestamp-derived log file name. -/
def run_program (programExists : Bool) (spawn : Option ProcBehavior)
    (file_path logName : String) (fs : LogsDir) :
    RunResult × LogsDir × List RunEffect :=
  if programExists = false then
    ({ success := false, exit_code := none, timed_out := none, output := "",
       log_file := none, error := some ("File not found: " ++ file_path) }, fs, [])
  else
    match spawn with
    | none =>
      ({ success := false, exit_code := none, timed_out := none, output := "",
         log_file := none,
         error := some "pybricksdev not found. Install it with: pip install pybricksdev" },
       fs, [.mkdirLogs])
    | some pb =>
      let outcome : String × Int × Bool × List RunEffect :=
        match pb with
        | .completes out rc => (out, rc, false, [])
        | .hangs out => (out, -1, true, [RunEffect.killed])
      let output := outcome.1
      let exit_code := outcome.2.1
      let timed_out := outcome.2.2.1
      let fs' : LogsDir :=
        { logFiles := if logName ∈ fs.logFiles then fs.logFiles else fs.logFiles ++ [logName],
          latest := some logName }
      ({ success := exit_code == 0, exit_code := some exit_code,
         timed_out := some timed_out, output := output,
         log_file := some ("logs/" ++ logName), error := none },
       fs', [.mkdirLogs, .spawned] ++ outcome.2.2.2 ++ [.wroteLog logName, .updatedLatest logName])

/-! ## discover.py — `run_discovery` orchestrator

Project-directory files are a list of names.  `writeOk` is the oracle for
`discover_file.write_text` (an `OSError` there is the only way staging can
fail); `runnerOutcome` is the oracle for the awaited `run_program` call
(`Except.error` modelling an exception escaping it); `runnerLogs` are the
names of whatever log files that call created under `logs/`
(`run_program` never touches the project root). -/

/-- Name of the staged probe program file. -/
def discoverFileName : String := "_llll_discover.py"

def removeFile (name : String) (fs : List String) : List String :=
  fs.filter (fun f => f ≠ name)

def stageFile (name : String) (fs : List String) : List String :=
  if name ∈ fs then fs else fs ++ [name]

/-- Decoded result of `run_discovery`: an error dict (with optional raw
output) or the decoded, enriched snapshot payload. -/
inductive DiscOutcome where
  | errorResult (message : String) (rawOutput : Option String)
  | snapshot (data : Json)

/-- Interpolation of `result.get('exit_code')` into the failure message. -/
def exitCodeText : Option Int → String
  | none => "None"
  | some n => toString n

/-- Model of `discover.run_discovery`: stage the probe file, run it,
branch on runner error / failure / decode result, and in all cases run
the `finally` block deleting the staged file if it exists. -/
def run_discovery (fs : List String) (writeOk : Bool)
    (runnerOutcome : Except PyErr RunResult) (runnerLogs : List String) :
    Except PyErr DiscOutcome × List String :=
  let staged := if writeOk then stageFile discoverFileName fs else fs
  let body : Except PyErr DiscOutcome :=
    if writeOk = false then .error .osError
    else
      match runnerOutcome with
      | .error e => .error e
      | .ok result =>
        if (result.error.getD "") ≠ "" then .ok (.errorResult (result.error.getD "") none)
        else if result.success = false then
          .ok (.errorResult
            ("Discovery program failed (exit code " ++ exitCodeText result.exit_code ++ ")")
            (some result.output))
        else
          match parse_discovery_output result.output with
          | .error e => .error e
          | .ok none => .ok (.errorResult "Could not parse discovery output" (some result.output))
          | .ok (some data) => .ok (.snapshot data)
  let afterRun := staged ++ runnerLogs.map (fun n => "logs/" ++ n)
  (body, if discoverFileName ∈ afterRun then removeFile discoverFileName afterRun else afterRun)

/-! ## Helper lemmas -/

theorem pyIntList_length : ∀ ps ns, pyIntList ps = some ns → ns.length = ps.length := by
  intro ps
  induction ps with
  | nil =>
    intro ns h
    simp only [pyIntList, Option.some.injEq] at h
    subst h
    rfl
  | cons p ps ih =>
    intro ns h
    unfold pyIntList at h
    cases hp : pyInt p <;> rw [hp] at h
    · exact absurd h (by simp)
    · cases hps : pyIntList ps <;> rw [hps] at h
      · exact absurd h (by simp)
      · simp only [Option.some.injEq] at h
        subst h
        simp [ih _ hps]

theorem tupleLt_asymm : ∀ a b, tupleLt a b = true → tupleLt b a = false := by
  intro a
  induction a with
  | nil =>
    intro b h
    cases b with
    | nil => simp [tupleLt] at h
    | cons y ys => simp [tupleLt]
  | cons x xs ih =>
    intro b h
    cases b with
    | nil => simp [tupleLt] at h
    | cons y ys =>
      simp only [tupleLt] at h ⊢
      rcases lt_trichotomy x y with hxy | hxy | hxy
      · simp [not_lt_of_lt hxy, hxy]
      · subst hxy
        simp only [lt_irrefl, if_false] at h ⊢
        exact ih _ h
      · simp [not_lt_of_lt hxy, hxy] at h

theorem tupleLt_irrefl (a : List Int) : tupleLt a a = false := by
  cases h : tupleLt a a
  · rfl
  · exact h ▸ tupleLt_asymm _ _ h

theorem tupleLt_total_eq : ∀ a b, tupleLt a b = false → tupleLt b a = false → a = b := by
  intro a
  induction a with
  | nil =>
    intro b h _
    cases b with
    | nil => rfl
    | cons y ys => simp [tupleLt] at h
  | cons x xs ih =>
    intro b h h'
    cases b with
    | nil => simp [tupleLt] at h'
    | cons y ys =>
      simp only [tupleLt] at h h'
      rcases lt_trichotomy x y with hxy | hxy | hxy
      · simp [hxy] at h
      · subst hxy
        simp only [lt_irrefl, if_false] at h h'
        rw [ih _ h h']
      · simp [hxy] at h'

/-! ## Claim theorems -/

/-- C2 counterexample: `parse_version` does not always return a triplet
("3.6" yields the pair (3, 6)), and an alphabetic pre-release tail other
than `a`/`b`/`rc` is not stripped ("3.6.0dev" falls back to (0, 0, 0)
rather than parsing as (3, 6, 0)). -/
theorem parse_version_not_always_triplet :
    parse_version "3.6" = [3, 6] ∧ parse_version "3.6.0dev" = [0, 0, 0] :=
  ⟨rfl, rfl⟩

/-- C2 (amended): `parse_version` returns one integer per dot-separated
component of the suffix-stripped input (a triplet exactly when there are
three components); empty, "unknown" or otherwise unparseable input maps to
(0, 0, 0); the stripped pre-release suffixes are those introduced by "a",
"b" or "rc", so "3.6.0b1" parses as (3, 6, 0). -/
theorem parse_version_spec (s : String) :
    (parse_version s = [0, 0, 0] ∨
      (parse_version s).length = (pySplit ['.'] (stripPreRelease s.data)).length)
    ∧ parse_version "3.6.0b1" = [3, 6, 0]
    ∧ parse_version "3.6.0rc2" = [3, 6, 0]
    ∧ parse_version "unknown" = [0, 0, 0]
    ∧ parse_version "" = [0, 0, 0]
    ∧ parse_version "3.6.1" = [3, 6, 1]
    ∧ parse_version "garbage" = [0, 0, 0] := by
  refine ⟨?_, rfl, rfl, rfl, rfl, rfl, rfl⟩
  unfold parse_version
  by_cases h : s.data = [] ∨ s.data = "unknown".data
  · simp [h]
  · simp only [h, if_false]
    cases hps : pyIntList (pySplit ['.'] (stripPreRelease s.data))
    · exact Or.inl rfl
    · exact Or.inr (pyIntList_length _ _ hps)

/-- C8: version comparison agrees with the spec's examples, and in general
`compare_versions` returns -1, 0 or 1 according to the lexicographic
comparison (`tupleLt`) of the two parsed version tuples, with 0 exactly on
equal parses. -/
theorem compare_versions_spec (current latest : String) :
    (compare_versions current latest = -1 ∨ compare_versions current latest = 0 ∨
      compare_versions current latest = 1)
    ∧ (compare_versions current latest = -1 ↔
        tupleLt (parse_version current) (parse_version latest) = true)
    ∧ (compare_versions current latest = 1 ↔
        tupleLt (parse_version latest) (parse_version current) = true)
    ∧ (compare_versions current latest = 0 ↔
        parse_version current = parse_version latest)
    ∧ compare_versions "3.5.0" "3.6.1" = -1
    ∧ compare_versions "3.6.1" "3.6.1" = 0
    ∧ compare_versions "3.6.0b1" "3.6.0" = 0
    ∧ compare_versions "unknown" "3.0.0" = -1 := by
  refine ⟨?_, ?_, ?_, ?_, rfl, rfl, rfl, rfl⟩ <;>
    unfold compare_versions <;>
    generalize parse_version current = a <;>
    generalize parse_version latest = b <;>
    dsimp only
  · split_ifs
    · exact Or.inl rfl
    · exact Or.inr (Or.inr rfl)
    · exact Or.inr (Or.inl rfl)
  · split_ifs with h1 h2
    · exact iff_of_true rfl h1
    · exact iff_of_false (by decide) h1
    · exact iff_of_false (by decide) h1
  · split_ifs with h1 h2
    · have hba := tupleLt_asymm _ _ h1
      exact iff_of_false (by decide) (by simp [hba])
    · exact iff_of_true rfl h2
    · exact iff_of_false (by decide) h2
  · split_ifs with h1 h2
    · refine iff_of_false (by decide) (fun he => ?_)
      rw [he, tupleLt_irrefl] at h1
      exact Bool.noConfusion h1
    · refine iff_of_false (by decide) (fun he => ?_)
      rw [he, tupleLt_irrefl] at h2
      exact Bool.noConfusion h2
    · exact iff_of_true rfl (tupleLt_total_eq a b (by simpa using h1) (by simpa using h2))

/-- C3: for every run whose program file exists and whose process spawn
succeeds (whether the process completes or times out), the returned
RunResult has `success = true` exactly when the recorded exit code is 0
and `timed_out` is false. -/
theorem run_program_success_iff (pb : ProcBehavior) (file_path logName : String) (fs : LogsDir) :
    (run_program true (some pb) file_path logName fs).1.success = true ↔
      ((run_program true (some pb) file_path logName fs).1.exit_code = some 0 ∧
        (run_program true (some pb) file_path logName fs).1.timed_out = some false) := by
  cases pb with
  | completes out rc => simp [run_program]
  | hangs out => simp [run_program]

/-- C4: every invocation that spawns a process (completing or timing out)
adds exactly the one new log file to the logs directory and points the
`latest` alias at it; invocations failing before the spawn (missing
program file, or uploader tool not found) leave the logs directory
unchanged.  The freshness hypothesis reflects the timestamp-derived
file name. -/
theorem run_program_log_effects (pb : ProcBehavior) (spawn : Option ProcBehavior)
    (file_path logName : String) (fs : LogsDir) (hfresh : logName ∉ fs.logFiles) :
    ((run_program true (some pb) file_path logName fs).2.1.logFiles
        = fs.logFiles ++ [logName]
      ∧ (run_program true (some pb) file_path logName fs).2.1.latest = some logName
      ∧ RunEffect.wroteLog logName ∈ (run_program true (some pb) file_path logName fs).2.2
      ∧ RunEffect.updatedLatest logName ∈ (run_program true (some pb) file_path logName fs).2.2)
    ∧ (run_program false spawn file_path logName fs).2.1 = fs
    ∧ (run_program true none file_path logName fs).2.1 = fs := by
  refine ⟨⟨?_, ?_, ?_, ?_⟩, rfl, rfl⟩ <;> cases pb <;> simp [run_program, hfresh]

theorem run_program_log_effects_witness :
    ("probe_20250101_000000.log" : String) ∉ (LogsDir.mk [] none).logFiles
    ∧ ((run_program true (some (.completes "done" 0)) "probe.py" "probe_20250101_000000.log"
          (LogsDir.mk [] none)).2.1.logFiles
        = ([] : List String) ++ ["probe_20250101_000000.log"]
      ∧ (run_program true (some (.completes "done" 0)) "probe.py" "probe_20250101_000000.log"
          (LogsDir.mk [] none)).2.1.latest = some "probe_20250101_000000.log"
      ∧ RunEffect.wroteLog "probe_20250101_000000.log" ∈
          (run_program true (some (.completes "done" 0)) "probe.py" "probe_20250101_000000.log"
            (LogsDir.mk [] none)).2.2
      ∧ RunEffect.updatedLatest "probe_20250101_000000.log" ∈
          (run_program true (some (.completes "done" 0)) "probe.py" "probe_20250101_000000.log"
            (LogsDir.mk [] none)).2.2)
    ∧ (run_program false none "probe.py" "probe_20250101_000000.log"
        (LogsDir.mk [] none)).2.1 = LogsDir.mk [] none
    ∧ (run_program true none "probe.py" "probe_20250101_000000.log"
        (LogsDir.mk [] none)).2.1 = LogsDir.mk [] none :=
  ⟨by simp,
    run_program_log_effects (.completes "done" 0) none "probe.py" "probe_20250101_000000.log"
      (LogsDir.mk [] none) (by simp)⟩

/-- C5: when the timeout elapses before the process exits, `run_program`
kills the process, returns the output drained before termination, records
the sentinel exit code -1 with `timed_out = true`, and the run is not a
success. -/
theorem run_program_timeout_spec (file_path logName partialOutput : String) (fs : LogsDir) :
    (run_program true (some (.hangs partialOutput)) file_path logName fs).1.timed_out = some true
    ∧ (run_program true (some (.hangs partialOutput)) file_path logName fs).1.exit_code
        = some (-1)
    ∧ (run_program true (some (.hangs partialOutput)) file_path logName fs).1.output
        = partialOutput
    ∧ (run_program true (some (.hangs partialOutput)) file_path logName fs).1.success = false
    ∧ RunEffect.killed ∈ (run_program true (some (.hangs partialOutput)) file_path logName fs).2.2 := by
  refine ⟨rfl, rfl, rfl, rfl, ?_⟩
  simp [run_program]

/-- Effect of the `finally` block (`if exists then unlink`) on a file list. -/
theorem not_mem_removeFile_final (name : String) (l : List String) :
    name ∉ (if name ∈ l then removeFile name l else l) := by
  split_ifs with h
  · simp [removeFile]
  · exact h

/-- C6: on every execution of `run_discovery` the staged probe program
file is absent from the project directory afterwards, whatever the staging
oracle, the runner outcome (success, error dict, raised exception), and the
decode result — including the paths where the body raises through the
`finally` block. -/
theorem run_discovery_cleanup (fs : List String) (writeOk : Bool)
    (runnerOutcome : Except PyErr RunResult) (runnerLogs : List String) :
    discoverFileName ∉ (run_discovery fs writeOk runnerOutcome runnerLogs).2 := by
  unfold run_discovery
  dsimp only
  exact not_mem_removeFile_final _ _

/-- Lines without the marker are skipped by the scan. -/
theorem parseLines_skip (pre rest : List (List Char))
    (h : ∀ l ∈ pre, charsStartsWith MARKER l = false) :
    parseLines (pre ++ rest) = parseLines rest := by
  induction pre with
  | nil => rfl
  | cons l pre ih =>
    have hl : charsStartsWith MARKER l = false := h l (by simp)
    simp only [List.cons_append, parseLines, hl, Bool.false_eq_true, if_false]
    exact ih (fun x hx => h x (by simp [hx]))

/-- C1 counterexample: a marker line whose remainder is not valid JSON
makes `parse_discovery_output` raise `json.JSONDecodeError` (the
`json.loads` call at line 120 is not guarded), rather than return the
no-result value `None`. -/
theorem parse_discovery_invalid_json_raises :
    parse_discovery_output "LLLL_DETECT:notjson" = .error PyErr.jsonDecode := rfl

/-- C1 (amended): an output with no marker line returns the no-result
value without raising; but when the first marker line's remainder is not
valid JSON, `parse_discovery_output` raises `json.JSONDecodeError`
(modelled as `.error .jsonDecode`) instead of returning the no-result
value.  In neither case is a partially populated snapshot returned. -/
theorem parse_discovery_no_marker_or_invalid (out : String) :
    ((∀ l ∈ pySplitlines out.data, charsStartsWith MARKER l = false) →
      parse_discovery_output out = .ok none)
    ∧ (∀ pre m post, pySplitlines out.data = pre ++ m :: post →
        (∀ l ∈ pre, charsStartsWith MARKER l = false) →
        charsStartsWith MARKER m = true →
        jsonLoads (m.drop MARKER.length) = .error PyErr.jsonDecode →
        parse_discovery_output out = .error PyErr.jsonDecode) := by
  constructor
  · intro h
    unfold parse_discovery_output
    have h2 := parseLines_skip (pySplitlines out.data) [] h
    simpa [parseLines] using h2
  · intro pre m post hsplit hpre hm hload
    unfold parse_discovery_output
    rw [hsplit, parseLines_skip pre _ hpre]
    have hd : decodeMarkerLine m = .error PyErr.jsonDecode := by
      unfold decodeMarkerLine
      rw [hload]
    simp [parseLines, hm, hd]

theorem parse_discovery_no_marker_or_invalid_witness :
    parse_discovery_output "plain output\nno marker" = .ok none
    ∧ parse_discovery_output "LLLL_DETECT:oops" = .error PyErr.jsonDecode :=
  ⟨(parse_discovery_no_marker_or_invalid "plain output\nno marker").1 (by decide),
   (parse_discovery_no_marker_or_invalid "LLLL_DETECT:oops").2
     [] "LLLL_DETECT:oops".data [] rfl (by simp) rfl rfl⟩

/-- C9: a decoded marker-line payload that is a JSON object containing an
`"error"` key is returned by `parse_discovery_output` exactly as decoded —
no enrichment is applied to it. -/
theorem parse_discovery_error_passthrough (out : String) (pre post : List (List Char))
    (m : List Char) (kvs : List (List Char × Json))
    (hsplit : pySplitlines out.data = pre ++ m :: post)
    (hpre : ∀ l ∈ pre, charsStartsWith MARKER l = false)
    (hm : charsStartsWith MARKER m = true)
    (hload : jsonLoads (m.drop MARKER.length) = .ok (.obj kvs))
    (herr : jsonHasKey "error".data kvs = true) :
    parse_discovery_output out = .ok (some (.obj kvs)) := by
  unfold parse_discovery_output
  rw [hsplit, parseLines_skip pre _ hpre]
  have hd : decodeMarkerLine m = .ok (.obj kvs) := by
    unfold decodeMarkerLine
    rw [hload]
    simp [decodePayload, pyInOp, herr]
  simp [parseLines, hm, hd]

theorem parse_discovery_error_passthrough_witness :
    parse_discovery_output "LLLL_DETECT:\x7b\"error\": \"boom\"\x7d"
      = .ok (some (.obj [("error".data, .str "boom".data)])) :=
  parse_discovery_error_passthrough _ [] [] "LLLL_DETECT:\x7b\"error\": \"boom\"\x7d".data
    [("error".data, .str "boom".data)] rfl (by simp) rfl rfl rfl

/-- C10: the result of `parse_discovery_output` is decided entirely by the
first marker line in order of appearance — every line after it, marker or
not, is ignored. -/
theorem parse_discovery_first_marker (out : String) (pre post : List (List Char))
    (m : List Char)
    (hsplit : pySplitlines out.data = pre ++ m :: post)
    (hpre : ∀ l ∈ pre, charsStartsWith MARKER l = false)
    (hm : charsStartsWith MARKER m = true) :
    parse_discovery_output out = (decodeMarkerLine m).map some := by
  unfold parse_discovery_output
  rw [hsplit, parseLines_skip pre _ hpre]
  cases hd : decodeMarkerLine m <;> simp [parseLines, hm, hd, Except.map]

theorem parse_discovery_first_marker_witness :
    parse_discovery_output
        "noise\nLLLL_DETECT:\x7b\"error\": \"first\"\x7d\nLLLL_DETECT:\x7b\"error\": \"second\"\x7d"
      = (decodeMarkerLine "LLLL_DETECT:\x7b\"error\": \"first\"\x7d".data).map some :=
  parse_discovery_first_marker _ ["noise".data]
    ["LLLL_DETECT:\x7b\"error\": \"second\"\x7d".data]
    "LLLL_DETECT:\x7b\"error\": \"first\"\x7d".data rfl (by decide) rfl

/-- C7: enrichment is a pure function of the decoded payload; for a port
entry (a JSON object), a `device_id` found in `DEVICE_MAP` — 46 in
particular — gains the catalog's human name ("Technic Large Motor"),
class and module; a non-null integer id absent from the catalog gains the
label "Unknown (ID N)"; a null (or absent) `device_id` leaves the entry
unchanged. -/
theorem enrichPort_spec (kvs : List (List Char × Json)) :
    (objGet kvs "device_id".data = some (.num 46) →
      enrichPort (.obj kvs) = .ok (.obj (objSet (objSet (objSet kvs
        "device_name".data (.str "Technic Large Motor".data))
        "pybricks_class".data (.str "Motor".data))
        "pybricks_module".data (.str "pybricks.pupdevices".data))))
    ∧ (∀ n d, objGet kvs "device_id".data = some (.num n) →
        deviceMapLookup n = some d →
        enrichPort (.obj kvs) = .ok (.obj (objSet (objSet (objSet kvs
          "device_name".data (.str d.1.data))
          "pybricks_class".data (.str d.2.1.data))
          "pybricks_module".data (.str d.2.2.data))))
    ∧ (∀ n, objGet kvs "device_id".data = some (.num n) →
        deviceMapLookup n = none →
        enrichPort (.obj kvs) = .ok (.obj (objSet kvs "device_name".data
          (.str ("Unknown (ID ".data ++ (toString n).data ++ ")".data)))))
    ∧ (objGet kvs "device_id".data = some .null → enrichPort (.obj kvs) = .ok (.obj kvs))
    ∧ (objGet kvs "device_id".data = none → enrichPort (.obj kvs) = .ok (.obj kvs)) := by
  have hgen : ∀ n d, objGet kvs "device_id".data = some (.num n) →
      deviceMapLookup n = some d →
      enrichPort (.obj kvs) = .ok (.obj (objSet (objSet (objSet kvs
        "device_name".data (.str d.1.data))
        "pybricks_class".data (.str d.2.1.data))
        "pybricks_module".data (.str d.2.2.data))) := by
    intro n d h hd
    simp [enrichPort, h, devHashKey, hd]
  refine ⟨fun h => ?_, hgen, ?_, fun h => ?_, fun h => ?_⟩
  · exact hgen 46 ("Technic Large Motor", "Motor", "pybricks.pupdevices") h rfl
  · intro n h hd
    simp [enrichPort, h, devHashKey, hd, pyFormatVal]
  · simp [enrichPort, h]
  · simp [enrichPort, h]

theorem enrichPort_spec_witness :
    enrichPort (.obj [("port".data, Json.str "A".data), ("device_id".data, Json.num 46)])
      = .ok (.obj (objSet (objSet (objSet
          [("port".data, Json.str "A".data), ("device_id".data, Json.num 46)]
          "device_name".data (.str "Technic Large Motor".data))
          "pybricks_class".data (.str "Motor".data))
          "pybricks_module".data (.str "pybricks.pupdevices".data)))
    ∧ enrichPort (.obj [("device_id".data, Json.num 9999)])
      = .ok (.obj (objSet [("device_id".data, Json.num 9999)] "device_name".data
          (.str ("Unknown (ID ".data ++ (toString (9999 : Int)).data ++ ")".data))))
    ∧ enrichPort (.obj [("port".data, Json.str "B".data), ("device_id".data, Json.null)])
      = .ok (.obj [("port".data, Json.str "B".data), ("device_id".data, Json.null)]) :=
  ⟨(enrichPort_spec _).1 rfl,
   (enrichPort_spec _).2.2.1 9999 rfl rfl,
   (enrichPort_spec _).2.2.2.1 rfl⟩

end Llll
